import Mathlib

/-!
Shallow embedding of the bank_app_core service layer (handler.py, orm.py,
validations_models.py, exceptions.py, utils.py).

Modelling conventions:
* Monetary amounts (Python `float`) are modelled as exact rationals `ℚ`.
* UUIDs are modelled as `Nat`, nanoid account ids as `String`, the
  `Numeric(26,0)` account_number as `Nat`.
* A SQLAlchemy session body is a function producing a `SessionOutcome`:
  either a successful final state plus a return value, or a raised Python
  exception together with the in-session (uncommitted) state at the moment
  of the raise.  `get_session` mirrors `BankAppHandler.get_session`:
  it commits on success, and on an exception it rolls back (the in-session
  state is discarded), reclassifying `IntegrityError` as
  `DuplictedError("Record already exists!")` and `NoResultFound` as
  `NotFoundError("Record not found!")`.
* The storage CHECK constraint `amount > 0` on the transactions table
  (orm.py `__table_args__`) fires at `session.flush()` inside
  `create_transaction`, raising `IntegrityError`.
* The FK `accounts.user_id → users.user_id` is declared with
  `ondelete="RESTRICT"` (orm.py): deleting a user that still owns accounts
  raises `IntegrityError` at flush/commit time.
* The pydantic request models (validations_models.py) run before the
  handler is invoked; a failed validator raises a validation error whose
  message is the `ValueError` text from the source (for `Field(gt=0)` the
  pydantic message "Input should be greater than 0").
* `passlib`'s bcrypt context is external to the repository; it is modelled
  as an injective tagging function, which preserves the verify/hash
  round-trip that `authenticate` relies on.
-/

namespace BankAppCore

structure Account where
  account_id : String
  account_number : Nat
  user_id : Nat
  amount : ℚ
deriving DecidableEq

structure Txn where
  account_id_from : String
  account_id_to : String
  amount : ℚ
deriving DecidableEq

structure User where
  user_id : Nat
  email : String
  password : String
deriving DecidableEq

structure BankState where
  users : List User
  accounts : List Account
  transactions : List Txn
deriving DecidableEq

/-- The exception classes of exceptions.py, plus SQLAlchemy's
`IntegrityError`/`NoResultFound` and pydantic's validation failure. -/
inductive PyError where
  | notFoundError (msg : String)
  | duplictedError (msg : String)
  | amountTooSmallError (msg : String)
  | errorConversionType (msg : String)
  | authenticationException (msg : String)
  | integrityError (msg : String)
  | noResultFound
  | validationError (msg : String)
deriving DecidableEq

/-- Result of running a session body: either a final state to commit with a
return value, or a raised exception with the uncommitted in-session state. -/
inductive SessionOutcome (α : Type) where
  | ok (s : BankState) (v : α)
  | raise (e : PyError) (midState : BankState)
deriving DecidableEq

instance exceptDecEq {ε α : Type} [DecidableEq ε] [DecidableEq α] : DecidableEq (Except ε α) :=
  fun a b =>
    match a, b with
    | .ok x, .ok y =>
        if h : x = y then .isTrue (by rw [h]) else .isFalse (by simp [h])
    | .ok _, .error _ => .isFalse (by simp)
    | .error _, .ok _ => .isFalse (by simp)
    | .error x, .error y =>
        if h : x = y then .isTrue (by rw [h]) else .isFalse (by simp [h])

/-- BankAppHandler.get_session: commit on success; on `IntegrityError` roll
back and raise `DuplictedError("Record already exists!")`; on `NoResultFound`
roll back and raise `NotFoundError("Record not found!")`; on any other
exception roll back and re-raise.  Rollback = the in-session state is
discarded (the committed state stays the state from before the operation). -/
def get_session {α : Type} (out : SessionOutcome α) : Except PyError (BankState × α) :=
  match out with
  | .ok s v => .ok (s, v)
  | .raise (.integrityError _) _ => .error (.duplictedError "Record already exists!")
  | .raise .noResultFound _ => .error (.notFoundError "Record not found!")
  | .raise e _ => .error e

/-- The state observable after the operation: the new state if it committed,
the original state if the operation raised (get_session rolled back). -/
def committedState {α : Type} (s : BankState) (r : Except PyError (BankState × α)) : BankState :=
  match r with
  | .ok p => p.1
  | .error _ => s

def findAccount (l : List Account) (id : String) : Option Account :=
  l.find? (fun a => a.account_id == id)

def findAccountByNumber (l : List Account) (n : Nat) : Option Account :=
  l.find? (fun a => a.account_number == n)

/-- Mutating `acc.amount` on the ORM row object found by a primary-key query:
exactly the first row whose account_id matches is updated. -/
def updateAmount (l : List Account) (id : String) (g : ℚ → ℚ) : List Account :=
  match l with
  | [] => []
  | a :: rest =>
    if a.account_id == id then { a with amount := g a.amount } :: rest
    else a :: updateAmount rest id g

/-- Overwriting `acc.amount` on the row found by account_number. -/
def setAmountByNumber (l : List Account) (n : Nat) (q : ℚ) : List Account :=
  match l with
  | [] => []
  | a :: rest =>
    if a.account_number == n then { a with amount := q } :: rest
    else a :: setAmountByNumber rest n q

/-- Balance of the account with the given id (0 if absent). -/
def balanceOf (s : BankState) (id : String) : ℚ :=
  ((findAccount s.accounts id).map Account.amount).getD 0

/-- The dict returned by BankAppHandler.create_transaction (minus the
server-generated transaction_id). -/
structure TxInfo where
  account_from_id : String
  account_to_id : String
  amount : ℚ
deriving DecidableEq

/-- The dict returned by BankAppHandler.update_account. -/
structure AccountInfo where
  account_id : String
  account_number : Nat
  amount : ℚ
  user_id : Nat
deriving DecidableEq

/-- Body of BankAppHandler.create_transaction, run inside get_session:
look up both accounts, raise NotFoundError for a missing one, raise
AmountTooSmallError when the source balance is below the amount, otherwise
debit the source, credit the destination and insert the Transactions row.
The flush of that row checks the storage constraint `amount > 0`
(orm.py CheckConstraint "invalid_range_value_amount"); a violation raises
IntegrityError with the balance mutations still uncommitted. -/
def create_transaction_body (s : BankState) (account_from_id account_to_id : String)
    (amount : ℚ) : SessionOutcome TxInfo :=
  match findAccount s.accounts account_from_id with
  | none => .raise (.notFoundError ("Account " ++ account_from_id ++ " does not exist!")) s
  | some acc_from =>
    match findAccount s.accounts account_to_id with
    | none => .raise (.notFoundError ("Account " ++ account_to_id ++ " does not exist!")) s
    | some _ =>
      if acc_from.amount < amount then
        .raise (.amountTooSmallError "Too little money in account!") s
      else
        let accounts2 := updateAmount (updateAmount s.accounts account_from_id (· - amount))
          account_to_id (· + amount)
        if 0 < amount then
          .ok { s with accounts := accounts2,
                       transactions := s.transactions ++
                         [⟨account_from_id, account_to_id, amount⟩] }
            ⟨account_from_id, account_to_id, amount⟩
        else
          .raise (.integrityError "invalid_range_value_amount") { s with accounts := accounts2 }

def create_transaction (s : BankState) (account_from_id account_to_id : String)
    (amount : ℚ) : Except PyError (BankState × TxInfo) :=
  get_session (create_transaction_body s account_from_id account_to_id amount)

/-- validations_models.CreateTransaction: the field constraint
`amount: float = Field(..., gt=0)` runs first; the after-model validator
`validate_accounts` then rejects equal account ids. -/
def validate_create_transaction (account_from_id account_to_id : String)
    (amount : ℚ) : Except PyError Unit :=
  if 0 < amount then
    if account_from_id == account_to_id then
      .error (.validationError "Accounts must be different!")
    else .ok ()
  else .error (.validationError "Input should be greater than 0")

/-- The api.py create_transaction endpoint pipeline: pydantic validation of
the request body, then the handler call. -/
def api_create_transaction (s : BankState) (account_from_id account_to_id : String)
    (amount : ℚ) : Except PyError (BankState × TxInfo) :=
  match validate_create_transaction account_from_id account_to_id amount with
  | .error e => .error e
  | .ok _ => create_transaction s account_from_id account_to_id amount

/-- Body of BankAppHandler.update_account: look up by public account_number,
NotFoundError when absent, otherwise overwrite that account's balance. -/
def update_account_body (s : BankState) (number : Nat) (new_amount : ℚ) :
    SessionOutcome AccountInfo :=
  match findAccountByNumber s.accounts number with
  | none => .raise (.notFoundError ("Account " ++ toString number ++ " not found")) s
  | some account =>
      .ok { s with accounts := setAmountByNumber s.accounts number new_amount }
        ⟨account.account_id, account.account_number, new_amount, account.user_id⟩

def update_account (s : BankState) (number : Nat) (new_amount : ℚ) :
    Except PyError (BankState × AccountInfo) :=
  get_session (update_account_body s number new_amount)

/-- validations_models.UpdateAccount.validate_amount: rejects
`value <= 0` with ValueError("Amount must be greater than 0!"). -/
def validate_update_account (new_amount : ℚ) : Except PyError Unit :=
  if new_amount ≤ 0 then .error (.validationError "Amount must be greater than 0!")
  else .ok ()

/-- The api.py update_account endpoint pipeline: pydantic validation of the
request body, then the handler call. -/
def api_update_account (s : BankState) (number : Nat) (new_amount : ℚ) :
    Except PyError (BankState × AccountInfo) :=
  match validate_update_account new_amount with
  | .error e => .error e
  | .ok _ => update_account s number new_amount

/-- Body of BankAppHandler.delete_user: look up the user, NotFoundError when
absent, else delete the row.  The FK accounts.user_id is declared
`ondelete="RESTRICT"` (orm.py), so when the user still owns accounts the
delete raises IntegrityError at flush/commit. -/
def delete_user_body (s : BankState) (uid : Nat) : SessionOutcome Unit :=
  match s.users.find? (fun u => u.user_id == uid) with
  | none => .raise (.notFoundError ("User " ++ toString uid ++ " not found")) s
  | some _ =>
      if s.accounts.any (fun a => a.user_id == uid) then
        .raise (.integrityError "foreign key violation on accounts.user_id RESTRICT") s
      else
        .ok { s with users := s.users.filter (fun u => u.user_id != uid) } ()

def delete_user (s : BankState) (uid : Nat) : Except PyError (BankState × Unit) :=
  get_session (delete_user_body s uid)

/-- Model of passlib's bcrypt CryptContext.hash (external library): an
injective tag, preserving the verify-of-hash round trip. -/
def pwd_hash (p : String) : String := "bcrypt" ++ p

/-- Model of CryptContext.verify. -/
def pwd_verify (p h : String) : Bool := h == pwd_hash p

/-- Body of BankAppHandler.authenticate: unknown email and wrong password
both raise AuthenticationException("Wrong email or password!"). -/
def authenticate_body (s : BankState) (email password : String) : SessionOutcome User :=
  match s.users.find? (fun u => u.email == email) with
  | none => .raise (.authenticationException "Wrong email or password!") s
  | some user =>
      if pwd_verify password user.password then .ok s user
      else .raise (.authenticationException "Wrong email or password!") s

def authenticate (s : BankState) (email password : String) :
    Except PyError (BankState × User) :=
  get_session (authenticate_body s email password)

/-- Python string.punctuation is exactly the printable ASCII characters in
the ranges 33–47, 58–64, 91–96 and 123–126. -/
def isPunct (c : Char) : Bool :=
  (33 ≤ c.toNat && c.toNat ≤ 47) || (58 ≤ c.toNat && c.toNat ≤ 64) ||
  (91 ≤ c.toNat && c.toNat ≤ 96) || (123 ≤ c.toNat && c.toNat ≤ 126)

def hasLower (v : String) : Bool := v.toList.any Char.isLower

def hasUpper (v : String) : Bool := v.toList.any Char.isUpper

def hasDigit (v : String) : Bool := v.toList.any Char.isDigit

def hasPunct (v : String) : Bool := v.toList.any isPunct

/-- validations_models.CreateUser.validate_password: the five checks in
source order, each raising a ValueError naming the unmet rule
(MIN_PASSWORD_LENGTH = 8). -/
def validate_password (value : String) : Except PyError String :=
  if value.length < 8 then
    .error (.validationError "Password must have at least 8 characters!")
  else if !(hasLower value) then
    .error (.validationError "Password must contain a lowercase letter!")
  else if !(hasUpper value) then
    .error (.validationError "Password must contain an uppercase letter!")
  else if !(hasDigit value) then
    .error (.validationError "Password must contain a digit!")
  else if !(hasPunct value) then
    .error (.validationError "Password must contain a special character!")
  else
    .ok value

/-- All committed account balances are non-negative. -/
def nonnegBalances (s : BankState) : Prop := ∀ x ∈ s.accounts, 0 ≤ x.amount

instance (s : BankState) : Decidable (nonnegBalances s) :=
  List.decidableBAll _ s.accounts

/-- The committed state after one create_transaction request. -/
def applyTransfer (s : BankState) (req : String × String × ℚ) : BankState :=
  committedState s (create_transaction s req.1 req.2.1 req.2.2)

/-- The committed state after a sequence of create_transaction requests. -/
def applyTransfers (s : BankState) (reqs : List (String × String × ℚ)) : BankState :=
  reqs.foldl applyTransfer s

/-- Whether a result is an ErrorConversionType failure. -/
def isConversionTypeError {α : Type} (r : Except PyError α) : Bool :=
  match r with
  | .error (.errorConversionType _) => true
  | _ => false

/-- Whether a result is an AmountTooSmallError failure. -/
def isAmountTooSmallError {α : Type} (r : Except PyError α) : Bool :=
  match r with
  | .error (.amountTooSmallError _) => true
  | _ => false

/- Concrete fixture state used by counterexamples and witnesses. -/

def user1 : User := ⟨1, "a@x.com", pwd_hash "Aa1!2345"⟩

def accA : Account := ⟨"A", 1, 1, 100⟩

def accB : Account := ⟨"B", 2, 2, 5⟩

def s0 : BankState := ⟨[user1], [accA, accB], []⟩

/-- The committed fixture state after transferring 40 from A to B. -/
def s0T : BankState :=
  ⟨[user1], [⟨"A", 1, 1, 60⟩, ⟨"B", 2, 2, 45⟩], [⟨"A", "B", 40⟩]⟩

/-- The in-session fixture state left when a transfer of -3 from A to B hits
the storage check constraint: balances already mutated, row not inserted. -/
def s0Mid : BankState :=
  ⟨[user1], [⟨"A", 1, 1, 103⟩, ⟨"B", 2, 2, 2⟩], []⟩

/- ------------------------------------------------------------------ -/
/- Helper lemmas about the list-level account operations.              -/
/- ------------------------------------------------------------------ -/

theorem updateAmount_keeps_id (a : Account) (g : ℚ → ℚ) :
    (Account.mk a.account_id a.account_number a.user_id (g a.amount)).account_id
      = a.account_id := rfl

theorem findAccount_updateAmount_self (l : List Account) (id : String) (g : ℚ → ℚ) :
    findAccount (updateAmount l id g) id =
      (findAccount l id).map (fun a => { a with amount := g a.amount }) := by
  induction l with
  | nil => rfl
  | cons a rest ih =>
      by_cases h : a.account_id = id
      · simp [findAccount, updateAmount, h, List.find?_cons_of_pos]
      · simp [findAccount, updateAmount, h, List.find?_cons_of_neg] at ih ⊢
        exact ih

theorem findAccount_updateAmount_ne (l : List Account) (id idq : String) (g : ℚ → ℚ)
    (h : idq ≠ id) :
    findAccount (updateAmount l id g) idq = findAccount l idq := by
  have h' : id ≠ idq := fun hc => h hc.symm
  induction l with
  | nil => rfl
  | cons a rest ih =>
      by_cases h1 : a.account_id = id
      · simp [findAccount, updateAmount, h1, h']
      · by_cases h2 : a.account_id = idq
        · simp [findAccount, updateAmount, h1, h2, h]
        · simp only [findAccount] at ih
          simp [findAccount, updateAmount, h1, h2, ih]

theorem mem_updateAmount (l : List Account) (id : String) (g : ℚ → ℚ) (x : Account)
    (hx : x ∈ updateAmount l id g) :
    x ∈ l ∨ ∃ m, findAccount l id = some m ∧ x = { m with amount := g m.amount } := by
  induction l with
  | nil => simp [updateAmount] at hx
  | cons a rest ih =>
      by_cases h1 : a.account_id = id
      · rw [show updateAmount (a :: rest) id g
            = { a with amount := g a.amount } :: rest by
              simp [updateAmount, h1]] at hx
        rcases List.mem_cons.mp hx with hx | hx
        · exact Or.inr ⟨a, by simp [findAccount, h1], hx⟩
        · exact Or.inl (List.mem_cons_of_mem _ hx)
      · rw [show updateAmount (a :: rest) id g = a :: updateAmount rest id g by
              simp [updateAmount, h1]] at hx
        rcases List.mem_cons.mp hx with hx | hx
        · exact Or.inl (by simp [hx])
        · rcases ih hx with hx | ⟨m, hm, hxm⟩
          · exact Or.inl (List.mem_cons_of_mem _ hx)
          · refine Or.inr ⟨m, ?_, hxm⟩
            simpa [findAccount, h1] using hm

theorem findByNumber_set_self (l : List Account) (n : Nat) (q : ℚ) :
    findAccountByNumber (setAmountByNumber l n q) n =
      (findAccountByNumber l n).map (fun a => { a with amount := q }) := by
  induction l with
  | nil => rfl
  | cons a rest ih =>
      by_cases h : a.account_number = n
      · simp [findAccountByNumber, setAmountByNumber, h]
      · simp [findAccountByNumber, setAmountByNumber, h] at ih ⊢
        exact ih

theorem findByNumber_set_ne (l : List Account) (n m : Nat) (q : ℚ)
    (h : m ≠ n) :
    findAccountByNumber (setAmountByNumber l n q) m = findAccountByNumber l m := by
  have h' : n ≠ m := fun hc => h hc.symm
  induction l with
  | nil => rfl
  | cons a rest ih =>
      by_cases h1 : a.account_number = n
      · simp [findAccountByNumber, setAmountByNumber, h1, h']
      · by_cases h2 : a.account_number = m
        · simp [findAccountByNumber, setAmountByNumber, h1, h2, h]
        · simp only [findAccountByNumber] at ih
          simp [findAccountByNumber, setAmountByNumber, h1, h2, ih]

/-- Characterization of a successful handler-level create_transaction. -/
theorem create_transaction_ok_elim (s : BankState) (f t : String) (a : ℚ)
    (s' : BankState) (r : TxInfo)
    (h : create_transaction s f t a = .ok (s', r)) :
    ∃ af bt, findAccount s.accounts f = some af ∧ findAccount s.accounts t = some bt ∧
      a ≤ af.amount ∧ 0 < a ∧
      s' = { s with
        accounts := updateAmount (updateAmount s.accounts f (· - a)) t (· + a),
        transactions := s.transactions ++ [⟨f, t, a⟩] } ∧
      r = ⟨f, t, a⟩ := by
  unfold create_transaction create_transaction_body at h
  cases hf : findAccount s.accounts f with
  | none => rw [hf] at h; simp [get_session] at h
  | some af =>
    cases ht : findAccount s.accounts t with
    | none => rw [hf, ht] at h; simp [get_session] at h
    | some bt =>
      rw [hf, ht] at h
      by_cases hlt : af.amount < a
      · simp [hlt, get_session] at h
      · by_cases hpos : 0 < a
        · simp only [if_neg hlt, if_pos hpos, get_session, Except.ok.injEq,
            Prod.mk.injEq] at h
          exact ⟨af, bt, rfl, rfl, le_of_not_lt hlt, hpos, h.1.symm, h.2.symm⟩
        · simp [hlt, hpos, get_session] at h

/-- C1: for every successful create_transaction in which both accounts exist
and the checks pass, the source balance decreases by exactly the amount, the
destination balance increases by exactly the amount, and the sum of the two
balance changes is zero. -/
theorem create_transaction_conservation (s s' : BankState) (f t : String) (a : ℚ)
    (r : TxInfo)
    (h : api_create_transaction s f t a = .ok (s', r)) :
    balanceOf s' f = balanceOf s f - a ∧
    balanceOf s' t = balanceOf s t + a ∧
    (balanceOf s' f - balanceOf s f) + (balanceOf s' t - balanceOf s t) = 0 := by
  unfold api_create_transaction validate_create_transaction at h
  by_cases hpos : 0 < a
  · by_cases heq : f = t
    · rw [if_pos hpos, if_pos (show (f == t) = true by simp [heq])] at h
      exact Except.noConfusion h
    · rw [if_pos hpos, if_neg (show ¬ (f == t) = true by simp [heq])] at h
      obtain ⟨af, bt, hf, ht, hle, hpos', hs', hr⟩ :=
        create_transaction_ok_elim s f t a s' r h
      have hbf : balanceOf s f = af.amount := by simp [balanceOf, hf]
      have hbt : balanceOf s t = bt.amount := by simp [balanceOf, ht]
      have hbf' : balanceOf s' f = af.amount - a := by
        simp only [balanceOf, hs']
        rw [findAccount_updateAmount_ne _ t f _ heq,
          findAccount_updateAmount_self, hf]
        rfl
      have hbt' : balanceOf s' t = bt.amount + a := by
        simp only [balanceOf, hs']
        rw [findAccount_updateAmount_self,
          findAccount_updateAmount_ne _ f t _ (fun hc => heq hc.symm), ht]
        rfl
      refine ⟨by rw [hbf', hbf], by rw [hbt', hbt], ?_⟩
      rw [hbf', hbf, hbt', hbt]; ring
  · rw [if_neg hpos] at h
    exact Except.noConfusion h

/-- Witness for C1: transferring 40 from A (balance 100) to B (balance 5)
commits balances 60 and 45. -/
theorem create_transaction_conservation_witness :
    api_create_transaction s0 "A" "B" 40 = .ok (s0T, ⟨"A", "B", 40⟩) ∧
    balanceOf s0T "A" = balanceOf s0 "A" - 40 ∧
    balanceOf s0T "B" = balanceOf s0 "B" + 40 := by
  have h : api_create_transaction s0 "A" "B" 40 = .ok (s0T, ⟨"A", "B", 40⟩) := by
    norm_num [api_create_transaction, validate_create_transaction, create_transaction,
      create_transaction_body, get_session, findAccount, updateAmount, s0, s0T,
      accA, accB, user1, List.find?,
      show ¬ ("A":String) = "B" from by decide,
      show (("A":String) == "B") = false from by decide,
      show (("B":String) == "B") = true from by decide,
      show (("A":String) == "A") = true from by decide]
  exact ⟨h, (create_transaction_conservation s0 s0T "A" "B" 40 ⟨"A", "B", 40⟩ h).1,
    (create_transaction_conservation s0 s0T "A" "B" 40 ⟨"A", "B", 40⟩ h).2.1⟩

/-- One committed create_transaction step preserves non-negative balances:
a committing transfer requires amount ≤ source balance and, via the storage
check constraint, 0 < amount; every failing transfer is rolled back. -/
theorem nonneg_applyTransfer (s : BankState) (req : String × String × ℚ)
    (h : nonnegBalances s) : nonnegBalances (applyTransfer s req) := by
  unfold applyTransfer
  cases hr : create_transaction s req.1 req.2.1 req.2.2 with
  | error e => simpa [committedState] using h
  | ok p =>
    obtain ⟨s', r⟩ := p
    obtain ⟨af, bt, hf, ht, hle, hpos, hs', hr'⟩ :=
      create_transaction_ok_elim s req.1 req.2.1 req.2.2 s' r hr
    simp only [committedState]
    intro x hx
    rw [hs'] at hx
    simp only at hx
    rcases mem_updateAmount _ _ _ _ hx with hx1 | ⟨m, hm, hxm⟩
    · rcases mem_updateAmount _ _ _ _ hx1 with hx2 | ⟨m, hm, hxm⟩
      · exact h x hx2
      · rw [hf] at hm
        injection hm with hm
        subst hm
        rw [hxm]
        show (0:ℚ) ≤ af.amount - req.2.2
        linarith
    · have hm' : m ∈ updateAmount s.accounts req.1 (· - req.2.2) :=
        List.mem_of_find?_eq_some hm
      have hm0 : (0:ℚ) ≤ m.amount := by
        rcases mem_updateAmount _ _ _ _ hm' with hm2 | ⟨m2, hm2, hmm⟩
        · exact h m hm2
        · rw [hf] at hm2
          injection hm2 with hm2
          subst hm2
          rw [hmm]
          show (0:ℚ) ≤ af.amount - req.2.2
          linarith
      rw [hxm]
      show (0:ℚ) ≤ m.amount + req.2.2
      linarith

/-- C2: starting from a state with only non-negative balances, no sequence of
create_transaction operations ever commits a state with a negative balance
(every prefix of the sequence is itself a sequence, so every intermediate
committed state is covered). -/
theorem no_negative_balances (reqs : List (String × String × ℚ)) (s : BankState)
    (h : nonnegBalances s) : nonnegBalances (applyTransfers s reqs) := by
  induction reqs generalizing s with
  | nil => exact h
  | cons req rest ih => exact ih (applyTransfer s req) (nonneg_applyTransfer s req h)

/-- Witness for C2: a concrete two-transfer run from the fixture state. -/
theorem no_negative_balances_witness :
    nonnegBalances s0 ∧
    nonnegBalances (applyTransfers s0 [("A", "B", 40), ("B", "A", 2)]) :=
  ⟨by decide, no_negative_balances [("A", "B", 40), ("B", "A", 2)] s0 (by decide)⟩

/-- C3 counterexample: in the fixture state the self-transfer
create_transaction(A, A, 5) is rejected, but with the validation-layer error
"Accounts must be different!", not with an ErrorConversionType failure (that
exception class is never raised anywhere in the code). -/
theorem self_transfer_not_conversion_type :
    isConversionTypeError (api_create_transaction s0 "A" "A" 5) = false ∧
    api_create_transaction s0 "A" "A" 5 =
      .error (.validationError "Accounts must be different!") := by decide

/-- C3 amended: for every account id A and every amount, the API-level
create_transaction(A, A, amount) fails with a validation-layer error (the
after-model validator message when the amount is positive, the gt-0 field
message otherwise) before reaching the handler, and the committed state is
unchanged. -/
theorem self_transfer_rejected (s : BankState) (A : String) (a : ℚ) :
    (∃ m, api_create_transaction s A A a = .error (.validationError m)) ∧
    committedState s (api_create_transaction s A A a) = s := by
  unfold api_create_transaction validate_create_transaction
  by_cases hpos : 0 < a
  · rw [if_pos hpos, if_pos (show (A == A) = true by simp)]
    exact ⟨⟨_, rfl⟩, rfl⟩
  · rw [if_neg hpos]
    exact ⟨⟨_, rfl⟩, rfl⟩

/-- C4: with both accounts present and distinct and the amount strictly
greater than the source balance, create_transaction raises
AmountTooSmallError("Too little money in account!") and the committed state
is unchanged — no balance changes and no Transactions row is inserted. -/
theorem insufficient_funds_rejected (s : BankState) (f t : String) (a : ℚ)
    (af bt : Account)
    (hf : findAccount s.accounts f = some af)
    (ht : findAccount s.accounts t = some bt)
    (hne : f ≠ t)
    (hlt : af.amount < a) :
    create_transaction s f t a =
      .error (.amountTooSmallError "Too little money in account!") ∧
    committedState s (create_transaction s f t a) = s := by
  unfold create_transaction create_transaction_body
  simp only [hf, ht]
  rw [if_pos hlt]
  exact ⟨rfl, rfl⟩

/-- Witness for C4: B has balance 5, so a transfer of 10 from B to A fails
with AmountTooSmallError. -/
theorem insufficient_funds_rejected_witness :
    findAccount s0.accounts "B" = some accB ∧
    accB.amount < 10 ∧
    create_transaction s0 "B" "A" 10 =
      .error (.amountTooSmallError "Too little money in account!") :=
  ⟨by decide, by decide,
    (insufficient_funds_rejected s0 "B" "A" 10 accB accA
      (by decide) (by decide) (by decide) (by decide)).1⟩

/-- C5: whenever the body of create_transaction raises an exception — in
particular a storage-level constraint violation at the Transactions insert,
after the two balance mutations were already made in-session — get_session
rolls the unit of work back: the operation returns an error and the
committed state equals the state from before the operation. -/
theorem create_transaction_rollback (s : BankState) (f t : String) (a : ℚ)
    (e : PyError) (mid : BankState)
    (h : create_transaction_body s f t a = .raise e mid) :
    (∃ e', create_transaction s f t a = .error e') ∧
    committedState s (create_transaction s f t a) = s := by
  unfold create_transaction
  rw [h]
  cases e <;> exact ⟨⟨_, rfl⟩, rfl⟩

/-- Witness for C5: a transfer of -3 from A to B passes the balance check,
mutates both balances in-session (103 and 2), then violates the amount > 0
check constraint at the insert; the in-session state differs from the start
state, yet the committed state equals the start state. -/
theorem create_transaction_rollback_witness :
    create_transaction_body s0 "A" "B" (-3) =
      .raise (.integrityError "invalid_range_value_amount") s0Mid ∧
    s0Mid ≠ s0 ∧
    committedState s0 (create_transaction s0 "A" "B" (-3)) = s0 := by
  have h : create_transaction_body s0 "A" "B" (-3) =
      .raise (.integrityError "invalid_range_value_amount") s0Mid := by
    norm_num [create_transaction_body, findAccount, updateAmount, s0, s0Mid,
      accA, accB, user1, List.find?,
      show (("A":String) == "A") = true from by decide,
      show (("A":String) == "B") = false from by decide,
      show (("B":String) == "B") = true from by decide]
  exact ⟨h, by decide, (create_transaction_rollback s0 "A" "B" (-3) _ s0Mid h).2⟩

/-- C6 counterexample: the transfer create_transaction(A, B, 0) — amount ≤ 0
with both fixture accounts existing — is rejected, but with the pydantic
gt-0 validation error, not with an AmountTooSmallError. -/
theorem nonpositive_amount_not_amount_too_small :
    isAmountTooSmallError (api_create_transaction s0 "A" "B" 0) = false ∧
    api_create_transaction s0 "A" "B" 0 =
      .error (.validationError "Input should be greater than 0") := by decide

/-- C6 amended: for every pair of accounts and every amount ≤ 0 the transfer
is rejected before reaching the handler by the pydantic gt-0 field
constraint, with a validation error rather than AmountTooSmallError, and the
committed state is unchanged (if such an amount reached storage, the
transactions amount > 0 check constraint would abort the unit of work and
surface as DuplictedError instead). -/
theorem nonpositive_amount_rejected (s : BankState) (f t : String) (a : ℚ)
    (h : a ≤ 0) :
    api_create_transaction s f t a =
      .error (.validationError "Input should be greater than 0") ∧
    committedState s (api_create_transaction s f t a) = s := by
  unfold api_create_transaction validate_create_transaction
  rw [if_neg (not_lt.mpr h)]
  exact ⟨rfl, rfl⟩

/-- Witness for C6's amended theorem at amount 0 between A and B. -/
theorem nonpositive_amount_rejected_witness :
    (0:ℚ) ≤ 0 ∧
    api_create_transaction s0 "A" "B" 0 =
      .error (.validationError "Input should be greater than 0") :=
  ⟨le_refl 0, (nonpositive_amount_rejected s0 "A" "B" 0 (le_refl 0)).1⟩

/-- C7 counterexample: account number 1 exists (balance 100), yet
update_account(1, 0) — zero is non-negative, so the claim says it must be
accepted — is rejected by the validator, and a negative amount is rejected
with the same validation error rather than with an AmountTooSmallError. -/
theorem update_account_zero_rejected :
    api_update_account s0 1 0 =
      .error (.validationError "Amount must be greater than 0!") ∧
    isAmountTooSmallError (api_update_account s0 1 (-5)) = false := by decide

/-- C7 amended: update_account validates new_amount strictly positive —
every value ≤ 0 (zero included) is rejected by the pydantic validator with
ValueError("Amount must be greater than 0!"), not with AmountTooSmallError
or ErrorConversionType; for a positive amount it fails with NotFound when no
account has the public number, and otherwise overwrites exactly that
account's balance (all other accounts unchanged) and returns the updated
record. -/
theorem update_account_spec (s : BankState) (n : Nat) (a : ℚ) :
    (a ≤ 0 → api_update_account s n a =
        .error (.validationError "Amount must be greater than 0!")) ∧
    (0 < a → findAccountByNumber s.accounts n = none →
        api_update_account s n a =
          .error (.notFoundError ("Account " ++ toString n ++ " not found"))) ∧
    (0 < a → ∀ acc, findAccountByNumber s.accounts n = some acc →
        api_update_account s n a =
          .ok ({ s with accounts := setAmountByNumber s.accounts n a },
            ⟨acc.account_id, acc.account_number, a, acc.user_id⟩) ∧
        findAccountByNumber (setAmountByNumber s.accounts n a) n =
          some { acc with amount := a } ∧
        (∀ m, m ≠ n → findAccountByNumber (setAmountByNumber s.accounts n a) m =
          findAccountByNumber s.accounts m)) := by
  refine ⟨?_, ?_, ?_⟩
  · intro h
    unfold api_update_account validate_update_account
    rw [if_pos h]
  · intro hpos hn
    unfold api_update_account validate_update_account update_account update_account_body
    rw [if_neg (not_le.mpr hpos)]
    simp only [hn]
    rfl
  · intro hpos acc hacc
    refine ⟨?_, ?_, fun m hm => findByNumber_set_ne _ _ _ _ hm⟩
    · unfold api_update_account validate_update_account update_account update_account_body
      rw [if_neg (not_le.mpr hpos)]
      simp only [hacc]
      rfl
    · rw [findByNumber_set_self, hacc]
      rfl

/-- Witness for C7's amended theorem: updating account number 1 to 50
succeeds and leaves account number 2 untouched. -/
theorem update_account_spec_witness :
    0 < (50:ℚ) ∧
    api_update_account s0 1 50 =
      .ok ({ s0 with accounts := setAmountByNumber s0.accounts 1 50 },
        ⟨"A", 1, 50, 1⟩) ∧
    findAccountByNumber (setAmountByNumber s0.accounts 1 50) 2 =
      findAccountByNumber s0.accounts 2 := by
  have h := (update_account_spec s0 1 50).2.2 (by norm_num) accA (by decide)
  exact ⟨by norm_num, h.1, h.2.2 2 (by decide)⟩

/-- C8: authenticate raises the one generic
AuthenticationException("Wrong email or password!") both when no user has
the email and when the stored hash does not verify — the same error kind and
message, so the two failure causes are indistinguishable to the caller —
and on success returns the matched user. -/
theorem authenticate_generic_error (s : BankState) (email password : String) :
    (s.users.find? (fun w => w.email == email) = none →
      authenticate s email password =
        .error (.authenticationException "Wrong email or password!")) ∧
    (∀ u, s.users.find? (fun w => w.email == email) = some u →
      pwd_verify password u.password = false →
      authenticate s email password =
        .error (.authenticationException "Wrong email or password!")) ∧
    (∀ u, s.users.find? (fun w => w.email == email) = some u →
      pwd_verify password u.password = true →
      authenticate s email password = .ok (s, u)) := by
  refine ⟨?_, ?_, ?_⟩
  · intro h
    unfold authenticate authenticate_body
    simp only [h]
    rfl
  · intro u hu hv
    unfold authenticate authenticate_body
    simp only [hu, hv]
    rfl
  · intro u hu hv
    unfold authenticate authenticate_body
    simp only [hu, hv]
    rfl

/-- Witness for C8: unknown email and wrong password produce the identical
error; the correct credentials authenticate user1. -/
theorem authenticate_generic_error_witness :
    authenticate s0 "z@x.com" "whatever" =
      .error (.authenticationException "Wrong email or password!") ∧
    authenticate s0 "a@x.com" "wrongpw" =
      .error (.authenticationException "Wrong email or password!") ∧
    authenticate s0 "a@x.com" "Aa1!2345" = .ok (s0, user1) :=
  ⟨(authenticate_generic_error s0 "z@x.com" "whatever").1 (by decide),
   (authenticate_generic_error s0 "a@x.com" "wrongpw").2.1 user1 (by decide) (by decide),
   (authenticate_generic_error s0 "a@x.com" "Aa1!2345").2.2 user1 (by decide) (by decide)⟩

/-- C9: validate_password accepts a password exactly when its length is at
least 8 and it contains a lowercase letter, an uppercase letter, a digit and
a punctuation character; each rejection carries the message of the first
unmet rule in source order. -/
theorem validate_password_spec (v : String) :
    ((validate_password v = .ok v) ↔
      (8 ≤ v.length ∧ hasLower v = true ∧ hasUpper v = true ∧
        hasDigit v = true ∧ hasPunct v = true)) ∧
    (v.length < 8 → validate_password v =
      .error (.validationError "Password must have at least 8 characters!")) ∧
    (8 ≤ v.length → hasLower v = false → validate_password v =
      .error (.validationError "Password must contain a lowercase letter!")) ∧
    (8 ≤ v.length → hasLower v = true → hasUpper v = false →
      validate_password v =
      .error (.validationError "Password must contain an uppercase letter!")) ∧
    (8 ≤ v.length → hasLower v = true → hasUpper v = true →
      hasDigit v = false → validate_password v =
      .error (.validationError "Password must contain a digit!")) ∧
    (8 ≤ v.length → hasLower v = true → hasUpper v = true →
      hasDigit v = true → hasPunct v = false → validate_password v =
      .error (.validationError "Password must contain a special character!")) := by
  by_cases h1 : v.length < 8
  · have h1' : ¬ 8 ≤ v.length := by omega
    simp [validate_password, h1, h1']
  · have h1' : 8 ≤ v.length := by omega
    by_cases h2 : hasLower v = true
    · by_cases h3 : hasUpper v = true
      · by_cases h4 : hasDigit v = true
        · by_cases h5 : hasPunct v = true
          · simp [validate_password, h1, h1', h2, h3, h4, h5]
          · simp [validate_password, h1, h1', h2, h3, h4, h5]
        · simp [validate_password, h1, h1', h2, h3, h4]
      · simp [validate_password, h1, h1', h2, h3]
    · simp [validate_password, h1, h1', h2]

/-- Witness for C9: "abc" is rejected citing length (the spec's example) and
"Aa1!2345" is accepted. -/
theorem validate_password_spec_witness :
    ("abc").length < 8 ∧
    validate_password "abc" =
      .error (.validationError "Password must have at least 8 characters!") ∧
    validate_password "Aa1!2345" = .ok "Aa1!2345" :=
  ⟨by decide, (validate_password_spec "abc").2.1 (by decide),
    (validate_password_spec "Aa1!2345").1.mpr (by decide)⟩

/-- C10: deleting a user who still owns at least one account violates the
RESTRICT foreign key on accounts.user_id; get_session reclassifies the
IntegrityError as DuplictedError("Record already exists!") — not NotFound,
not a distinct restriction error — and the committed state (the user and all
accounts) is unchanged. -/
theorem delete_user_with_accounts_duplicated (s : BankState) (uid : Nat) (u : User)
    (hu : s.users.find? (fun w => w.user_id == uid) = some u)
    (ha : s.accounts.any (fun a => a.user_id == uid) = true) :
    delete_user s uid = .error (.duplictedError "Record already exists!") ∧
    committedState s (delete_user s uid) = s := by
  unfold delete_user delete_user_body
  simp only [hu, ha]
  exact ⟨rfl, rfl⟩

/-- Witness for C10: user 1 owns account A in the fixture state. -/
theorem delete_user_with_accounts_duplicated_witness :
    delete_user s0 1 = .error (.duplictedError "Record already exists!") ∧
    committedState s0 (delete_user s0 1) = s0 :=
  ⟨(delete_user_with_accounts_duplicated s0 1 user1 (by decide) (by decide)).1,
   (delete_user_with_accounts_duplicated s0 1 user1 (by decide) (by decide)).2⟩

end BankAppCore
